import Mathlib

/-!
Shallow embedding of the Commax IoT integration's core layer
(custom_components/commax_iot): the auth session (auth.py), the polling
coordinator (init module), the light command dispatcher's value-fallback
loop (light.py), the optimistic local sub-device patch (climate.py /
fan.py) and the fan percentage-to-speed mapping (fan.py).

Modelling conventions:
  - every network interaction is an element of an environment list,
    consumed in call order; the element is `none` when the call raises a
    transport exception (Python: caught by the surrounding try/except),
    and an exhausted list behaves like a transport exception;
  - `time.time()` is a fixed `now : Int` for the duration of a scenario;
  - Python truthiness of optional ints/strings is modelled explicitly
    (`None`, `0` and `""` are falsy);
  - JSON response bodies are modelled by the fields the code reads
    (`resultCode`, tokens, `expireIn`, the extracted device array).
-/

/-- const.py: API_SUCCESS_CODE = "E0000". -/
def API_SUCCESS_CODE : String := "E0000"

/-- const.py: TOKEN_EXPIRE_BUFFER = 1800. -/
def TOKEN_EXPIRE_BUFFER : Int := 1800

/-- Python truthiness of an optional int (`None` and `0` are falsy). -/
def optIntTruthy : Option Int → Bool
  | none => false
  | some t => t ≠ 0

/-- Python truthiness of an optional string (`None` and `""` are falsy). -/
def optStrTruthy : Option String → Bool
  | none => false
  | some s => s ≠ ""

/-- Body/status of a response to the auth POST, as read by authenticate(). -/
structure AuthResponse where
  status : Nat
  resultCode : Option String
  accessToken : Option String
  refreshToken : Option String
  expireIn : Option Int
deriving Repr, DecidableEq

/-- The mutable session fields of CommaxAuthManager (auth.py lines 43-46). -/
structure AuthState where
  access_token : Option String
  refresh_token : Option String
  token_expires_at : Option Int
  authenticated : Bool
deriving Repr, DecidableEq

/-- auth.py `authenticate` (lines 48-105): one auth POST whose outcome is
`resp` (`none` = transport exception, caught by the except at line 103).
Returns the boolean result and the session state after the call. -/
def authenticate (now : Int) (resp : Option AuthResponse) (s : AuthState) :
    Bool × AuthState :=
  match resp with
  | none => (false, s)
  | some r =>
    if r.status ≠ 200 then (false, s)
    else if r.resultCode ≠ some API_SUCCESS_CODE then (false, s)
    else
      (true,
       { access_token := r.accessToken
         refresh_token := r.refreshToken
         token_expires_at := some (now + r.expireIn.getD 3600)
         authenticated := true })

/-- One call to authenticate() drawing its response from the environment
list (head; exhausted list = transport exception). Returns the boolean
result, the new state and the remaining environment. -/
def authPop (now : Int) (resps : List (Option AuthResponse)) (s : AuthState) :
    Bool × AuthState × List (Option AuthResponse) :=
  match resps with
  | [] => ((authenticate now none s).1, (authenticate now none s).2, [])
  | r :: rest => ((authenticate now r s).1, (authenticate now r s).2, rest)

/-- auth.py `refresh_token_if_needed` (lines 118-128). `if not
self._token_expires_at` is Python truthiness: both `None` and `0` take the
early-false branch. -/
def refresh_token_if_needed (now : Int) (resps : List (Option AuthResponse))
    (s : AuthState) : Bool × AuthState × List (Option AuthResponse) :=
  match s.token_expires_at with
  | none => (false, s, resps)
  | some t =>
    if t = 0 then (false, s, resps)
    else if t - TOKEN_EXPIRE_BUFFER ≤ now then authPop now resps s
    else (true, s, resps)

/-- auth.py `get_access_token` (lines 107-116). -/
def get_access_token (now : Int) (resps : List (Option AuthResponse))
    (s : AuthState) : Option String × AuthState × List (Option AuthResponse) :=
  if s.authenticated then
    match refresh_token_if_needed now resps s with
    | (true, s2, r2) => (s2.access_token, s2, r2)
    | (false, s2, r2) => (none, s2, r2)
  else
    match authPop now resps s with
    | (false, s1, r1) => (none, s1, r1)
    | (true, s1, r1) =>
      match refresh_token_if_needed now r1 s1 with
      | (true, s2, r2) => (s2.access_token, s2, r2)
      | (false, s2, r2) => (none, s2, r2)

/-- A sub-device record, with the fields the code reads via .get. -/
structure SubDevice where
  subUuid : Option String
  sort : Option String
  type : Option String
  value : Option String
deriving Repr, DecidableEq

/-- A device record from the vendor device list. -/
structure Device where
  rootUuid : Option String
  nickname : Option String
  rootDevice : Option String
  commaxDevice : Option String
  subDevice : List SubDevice
deriving Repr, DecidableEq

/-- Body/status of a response to the device-list GET. `devices` models the
`resource.devices.object` extraction (missing keys give []). -/
structure ListResponse where
  status : Nat
  resultCode : Option String
  devices : List Device
deriving Repr, DecidableEq

/-- Body/status of a response to the command POST. An empty response dict
has `resultCode := none` (the code's `if not result` branch and the
result-code check then both return false). -/
structure CmdResponse where
  status : Nat
  resultCode : Option String
deriving Repr, DecidableEq

/-- The re-authentication round performed inside the 401 branch of
get_device_list / send_device_command: `self._authenticated = False`
followed by one get_access_token() call, starting from the state and
environment left by the initial get_access_token() call. -/
def reauthAfter401 (now : Int) (a : List (Option AuthResponse)) (s : AuthState) :
    Option String × AuthState × List (Option AuthResponse) :=
  match get_access_token now a s with
  | (_, s1, a1) => get_access_token now a1 { s1 with authenticated := false }

/-- auth.py `get_device_list` (lines 130-186). Environment: `a` feeds the
authenticate() calls, `l` feeds the GETs (head = initial GET, next = the
401 retry if reached; `none` = transport exception). Returns the device
list, the final session state and the remaining environments. -/
def get_device_list (now : Int) (a : List (Option AuthResponse))
    (l : List (Option ListResponse)) (s : AuthState) :
    List Device × AuthState × List (Option AuthResponse) × List (Option ListResponse) :=
  match get_access_token now a s with
  | (tok, s1, a1) =>
    if ¬ optStrTruthy tok then ([], s1, a1, l)
    else
      match l with
      | [] => ([], s1, a1, [])
      | none :: l1 => ([], s1, a1, l1)
      | some r :: l1 =>
        if r.status = 401 then
          match get_access_token now a1 { s1 with authenticated := false } with
          | (tok2, s3, a2) =>
            if ¬ optStrTruthy tok2 then ([], s3, a2, l1)
            else
              match l1 with
              | [] => ([], s3, a2, [])
              | none :: l2 => ([], s3, a2, l2)
              | some r2 :: l2 =>
                if r2.status ≠ 200 then ([], s3, a2, l2)
                else if r2.resultCode ≠ some API_SUCCESS_CODE then ([], s3, a2, l2)
                else (r2.devices, s3, a2, l2)
        else if r.status ≠ 200 then ([], s1, a1, l1)
        else if r.resultCode ≠ some API_SUCCESS_CODE then ([], s1, a1, l1)
        else (r.devices, s1, a1, l1)

/-- The response get_device_list's result-code check is applied to: the
initial GET's response when its status is not 401, otherwise the retry
GET's response (none when no such response exists: token failure,
transport exception, or failed re-authentication). -/
def finalListResponse (now : Int) (a : List (Option AuthResponse))
    (l : List (Option ListResponse)) (s : AuthState) : Option ListResponse :=
  match get_access_token now a s with
  | (tok, s1, a1) =>
    if ¬ optStrTruthy tok then none
    else
      match l with
      | [] => none
      | none :: _ => none
      | some r :: l1 =>
        if r.status = 401 then
          match get_access_token now a1 { s1 with authenticated := false } with
          | (tok2, _, _) =>
            if ¬ optStrTruthy tok2 then none
            else
              match l1 with
              | [] => none
              | none :: _ => none
              | some r2 :: _ => some r2
        else some r

/-- auth.py `send_device_command` (lines 188-282). Same 401-retry shape as
get_device_list; the payload does not influence the control flow, so it is
not a parameter. -/
def send_device_command (now : Int) (a : List (Option AuthResponse))
    (c : List (Option CmdResponse)) (s : AuthState) :
    Bool × AuthState × List (Option AuthResponse) × List (Option CmdResponse) :=
  match get_access_token now a s with
  | (tok, s1, a1) =>
    if ¬ optStrTruthy tok then (false, s1, a1, c)
    else
      match c with
      | [] => (false, s1, a1, [])
      | none :: c1 => (false, s1, a1, c1)
      | some r :: c1 =>
        if r.status = 401 then
          match get_access_token now a1 { s1 with authenticated := false } with
          | (tok2, s3, a2) =>
            if ¬ optStrTruthy tok2 then (false, s3, a2, c1)
            else
              match c1 with
              | [] => (false, s3, a2, [])
              | none :: c2 => (false, s3, a2, c2)
              | some r2 :: c2 =>
                if r2.status ≠ 200 then (false, s3, a2, c2)
                else if r2.resultCode ≠ some API_SUCCESS_CODE then (false, s3, a2, c2)
                else (true, s3, a2, c2)
        else if r.status ≠ 200 then (false, s1, a1, c1)
        else if r.resultCode ≠ some API_SUCCESS_CODE then (false, s1, a1, c1)
        else (true, s1, a1, c1)

/-- The final HTTP response of a send_device_command call: the initial
POST's response when its status is not 401, otherwise the single retry's
response (none when no response was obtained at all). -/
def finalCmdResponse (now : Int) (a : List (Option AuthResponse))
    (c : List (Option CmdResponse)) (s : AuthState) : Option CmdResponse :=
  match get_access_token now a s with
  | (tok, s1, a1) =>
    if ¬ optStrTruthy tok then none
    else
      match c with
      | [] => none
      | none :: _ => none
      | some r :: c1 =>
        if r.status = 401 then
          match get_access_token now a1 { s1 with authenticated := false } with
          | (tok2, _, _) =>
            if ¬ optStrTruthy tok2 then none
            else
              match c1 with
              | [] => none
              | none :: _ => none
              | some r2 :: _ => some r2
        else some r

/-- The coordinator cache `self._devices`: an insertion-ordered map from
root UUID to device record, as a key-unique association list. -/
abbrev DeviceMap := List (String × Device)

/-- Python dict assignment `device_data[root_uuid] = device`: replace the
entry in place when the key exists, otherwise append. -/
def insertOrReplace (m : DeviceMap) (k : String) (v : Device) : DeviceMap :=
  match m with
  | [] => [(k, v)]
  | (k0, v0) :: rest =>
    if k0 = k then (k, v) :: rest else (k0, v0) :: insertOrReplace rest k v

/-- The dict-building loop of _async_update_data (init module lines
105-111): keep only devices with a truthy rootUuid, keyed by it. -/
def buildDeviceData (devices : List Device) : DeviceMap :=
  devices.foldl
    (fun acc d =>
      match d.rootUuid with
      | none => acc
      | some u => if u = "" then acc else insertOrReplace acc u d)
    []

/-- CommaxDataUpdateCoordinator._async_update_data (init module lines
92-123). `fetched` is the outcome of the body up to the device fetch:
`.ok devices` when get_device_list returned, `.error ()` when an exception
escaped into the except branch. Returns the coordinator result
(`.error ()` models a raised UpdateFailed) and the cache afterwards. -/
def asyncUpdateData (fetched : Except Unit (List Device)) (cache : DeviceMap) :
    Except Unit DeviceMap × DeviceMap :=
  match fetched with
  | .ok devices =>
    if devices = [] then (.ok (if cache = [] then [] else cache), cache)
    else (.ok (buildDeviceData devices), buildDeviceData devices)
  | .error _ =>
    if cache = [] then (.error (), []) else (.ok cache, cache)

/-- CommaxDataUpdateCoordinator.get_device_by_uuid (init module lines
125-127): dict .get by root UUID. -/
def get_device_by_uuid (cache : DeviceMap) (root_uuid : String) : Option Device :=
  match cache with
  | [] => none
  | (k, d) :: rest => if k = root_uuid then some d else get_device_by_uuid rest root_uuid

/-- light.py lines 191-196: the alternative-value table tried after a
first send failure ("on"/"off" are DEVICE_ON/DEVICE_OFF from const.py;
any other value gets no alternatives). -/
def alternativeValues (value : String) : List String :=
  if value = "on" then ["on", "true", "True", "1", "ON"]
  else if value = "off" then ["off", "false", "False", "0", "OFF"]
  else []

/-- Outcome of the next send_device_command attempt, drawn from a
per-attempt outcome list (exhausted list = failure). -/
def headOutcome : List Bool → Bool
  | [] => false
  | b :: _ => b

/-- The fallback loop of CommaxLight._send_command (light.py lines
246-264): try each alternative in order, stopping at the first success.
Returns the values attempted by the loop, in order, and the final
success flag. -/
def lightTryAlts (outcomes : List Bool) : List String → List String × Bool
  | [] => ([], false)
  | v :: rest =>
    if headOutcome outcomes then ([v], true)
    else
      match lightTryAlts outcomes.tail rest with
      | (tried, ok) => (v :: tried, ok)

/-- CommaxLight._send_command's attempt sequence (light.py lines 243-264):
the first attempt uses `value`; on failure, when the alternative list is
non-empty, the loop retries with each alternative in order until one
succeeds. Returns all attempted values in order and the final success. -/
def lightSendCommand (outcomes : List Bool) (value : String) :
    List String × Bool :=
  if headOutcome outcomes then ([value], true)
  else
    match alternativeValues value with
    | [] => ([value], false)
    | alt :: rest =>
      match lightTryAlts outcomes.tail (alt :: rest) with
      | (tried, ok) => (value :: tried, ok)

/-- First sub-device of `subs` whose subUuid equals `subU` — the lookup
all entity state readers perform (e.g. fan.py lines 196-199). -/
def findSub (subs : List SubDevice) (subU : String) : Option SubDevice :=
  match subs with
  | [] => none
  | sd :: rest => if sd.subUuid = some subU then some sd else findSub rest subU

/-- The in-place mutation loop of _update_local_subdevice_value
(climate.py lines 337-344 / fan.py lines 382-385): set the value of the
first sub-device whose subUuid matches, leave the rest unchanged. -/
def patchSubDevices (subs : List SubDevice) (subU : String) (v : String) :
    List SubDevice :=
  match subs with
  | [] => []
  | sd :: rest =>
    if sd.subUuid = some subU then { sd with value := some v } :: rest
    else sd :: patchSubDevices rest subU v

/-- Apply `f` to the device stored under `root_uuid` (Python mutates the
dict value in place; keys are unique, so only that entry changes). -/
def updateDeviceAt (cache : DeviceMap) (root_uuid : String) (f : Device → Device) :
    DeviceMap :=
  match cache with
  | [] => []
  | (k, d) :: rest =>
    if k = root_uuid then (k, f d) :: rest
    else (k, d) :: updateDeviceAt rest root_uuid f

/-- _update_local_subdevice_value (climate.py lines 326-347, fan.py lines
373-385), acting on the coordinator cache: no-op on a falsy sub_uuid or
when the device is not in the cache; otherwise patch the first matching
sub-device of the cached device in place. -/
def updateLocalSubdeviceValue (cache : DeviceMap) (root_uuid subU v : String) :
    DeviceMap :=
  if subU = "" then cache
  else
    match get_device_by_uuid cache root_uuid with
    | none => cache
    | some _ =>
      updateDeviceAt cache root_uuid
        (fun d => { d with subDevice := patchSubDevices d.subDevice subU v })

/-- Normalise the fraction n/d·2^e so that 2^52·d ≤ n < 2^53·d, i.e. the
quotient carries exactly 53 significant bits; doubling n (resp. d) and
compensating in the binary exponent e preserves the value. The fuel
n + d + 64 exceeds the 53 + bitlength bound on the number of shifts, so
the exhausted-fuel branch is never reached on positive inputs. -/
def normLoop : ℕ → ℕ → ℕ → ℤ → ℕ × ℕ × ℤ
  | 0, n, d, e => (n, d, e)
  | fuel + 1, n, d, e =>
    if n < 2 ^ 52 * d then normLoop fuel (2 * n) d (e - 1)
    else if 2 ^ 53 * d ≤ n then normLoop fuel n (2 * d) (e + 1)
    else (n, d, e)

/-- IEEE-754 binary64 rounding of the exact ratio n/d: returns the pair
(m, e) with value m·2^e, m a 53-bit significand obtained by
round-to-nearest, ties-to-even — the result Python computes for a float
division whose operands and quotient stay far from overflow and
underflow, as all of fan.py's do. -/
def roundRat (n d : ℕ) : ℕ × ℤ :=
  if n = 0 ∨ d = 0 then (0, 0)
  else
    match normLoop (n + d + 64) n d 0 with
    | (n2, d2, e) =>
      let q := n2 / d2
      let r := n2 % d2
      let q2 :=
        if d2 < 2 * r then q + 1
        else if 2 * r < d2 then q
        else if q % 2 = 0 then q else q + 1
      if q2 = 2 ^ 53 then (2 ^ 52, e + 1) else (q2, e)

/-- The index computation of CommaxFan._percentage_to_speed (fan.py lines
222-223) in Python float64 semantics: `step = 100 / n` is the ratio
100/n rounded to a double, `percentage / step` is the exact ratio of the
(exactly representable) percentage to that double, rounded to a double
again, and `math.ceil` of the resulting value m·2^e is exact integer
arithmetic. Only the length of the option list enters the computation. -/
def fanIndex (n : ℕ) (p : Int) : Int :=
  match roundRat 100 n with
  | (sm, se) =>
    let ratio : ℕ × ℕ :=
      if 0 ≤ se then (p.toNat, sm * 2 ^ se.toNat)
      else (p.toNat * 2 ^ (-se).toNat, sm)
    match roundRat ratio.1 ratio.2 with
    | (qm, qe) =>
      let c : Int :=
        if 0 ≤ qe then ((qm * 2 ^ qe.toNat : ℕ) : Int)
        else (((qm + 2 ^ (-qe).toNat - 1) / 2 ^ (-qe).toNat : ℕ) : Int)
      c - 1

/-- CommaxFan._percentage_to_speed (fan.py lines 217-225): guard, float
index computation (fanIndex), clamp into [0, n−1], list indexing. -/
def percentage_to_speed (options : List String) (percentage : Int) :
    Option String :=
  if options = [] ∨ percentage ≤ 0 then none
  else
    let clamped : ℤ :=
      max 0 (min (fanIndex options.length percentage)
                 ((options.length : ℤ) - 1))
    options.get? clamped.toNat

/-! ## Helper lemmas -/

lemma authenticate_fail_eq (now : Int) (r : AuthResponse) (s : AuthState)
    (h : r.status ≠ 200 ∨ r.resultCode ≠ some API_SUCCESS_CODE) :
    authenticate now (some r) s = (false, s) := by
  by_cases h2 : r.status = 200
  · rcases h with h | h
    · exact absurd h2 h
    · simp [authenticate, h2, h]
  · simp [authenticate, h2]

lemma authPop_remaining (now : Int) (resps : List (Option AuthResponse))
    (s : AuthState) : (authPop now resps s).2.2 = resps.tail := by
  cases resps <;> rfl

/-! ## C10: failed authentication modifies no session field -/

/-- C10: when authenticate() fails on a non-200 status or a non-success
result code, the whole session state — access token, refresh token, expiry
timestamp and authenticated flag — is returned unchanged. -/
theorem authenticate_failed_frame (now : Int) (r : AuthResponse) (s : AuthState)
    (h : r.status ≠ 200 ∨ r.resultCode ≠ some API_SUCCESS_CODE) :
    authenticate now (some r) s = (false, s) :=
  authenticate_fail_eq now r s h

theorem authenticate_failed_frame_witness :
    ((500 : Nat) ≠ 200 ∨ (none : Option String) ≠ some API_SUCCESS_CODE) ∧
    authenticate 7
      (some { status := 500, resultCode := none, accessToken := some "n",
              refreshToken := some "m", expireIn := some 60 })
      { access_token := some "tok", refresh_token := some "ref",
        token_expires_at := some 9000, authenticated := true } =
    (false,
     { access_token := some "tok", refresh_token := some "ref",
       token_expires_at := some 9000, authenticated := true }) :=
  ⟨Or.inl (by decide),
   authenticate_failed_frame 7 _ _ (Or.inl (by decide))⟩

/-! ## C7: authenticate() failure behaviour -/

/-- C7 counterexample: a failed re-authentication (HTTP 500) on a
previously authenticated session returns False but leaves the
authenticated flag true, contradicting the claim that every failure
results in the flag being false. -/
theorem authenticate_failure_flag_counterexample :
    (authenticate 0
      (some { status := 500, resultCode := none, accessToken := none,
              refreshToken := none, expireIn := none })
      { access_token := some "tok", refresh_token := some "ref",
        token_expires_at := some 9000, authenticated := true }).1 = false ∧
    (authenticate 0
      (some { status := 500, resultCode := none, accessToken := none,
              refreshToken := none, expireIn := none })
      { access_token := some "tok", refresh_token := some "ref",
        token_expires_at := some 9000, authenticated := true }).2.authenticated
      = true := by decide

/-- C7 (amended): any non-200 response, non-success result code or
transport exception makes authenticate() return False with the session
state (authenticated flag included) unchanged; the call never propagates
an exception — it is a total function into Bool × state. -/
theorem authenticate_failure_returns_false (now : Int)
    (resp : Option AuthResponse) (s : AuthState)
    (h : resp = none ∨
         ∃ r, resp = some r ∧
           (r.status ≠ 200 ∨ r.resultCode ≠ some API_SUCCESS_CODE)) :
    authenticate now resp s = (false, s) := by
  rcases h with h | ⟨r, hr, h⟩
  · rw [h]; rfl
  · rw [hr]; exact authenticate_fail_eq now r s h

theorem authenticate_failure_returns_false_witness :
    authenticate 3
      (some { status := 200, resultCode := some "E9001",
              accessToken := some "x", refreshToken := some "y",
              expireIn := some 10 })
      { access_token := none, refresh_token := none,
        token_expires_at := none, authenticated := false } =
    (false,
     { access_token := none, refresh_token := none,
       token_expires_at := none, authenticated := false }) :=
  authenticate_failure_returns_false 3 _ _
    (Or.inr ⟨_, rfl, Or.inr (by decide)⟩)

/-! ## C3: cache replaced wholesale or retained verbatim -/

/-- C3: a refresh yielding a non-empty device list replaces the cache
wholesale with the freshly built device map (which does not depend on the
prior cache, so nothing is ever partially merged); a refresh yielding an
empty list or an exception while a non-empty cache exists leaves the cache
verbatim and returns it. -/
theorem coordinator_cache_wholesale_or_retained
    (fetched : Except Unit (List Device)) (cache : DeviceMap) :
    (∀ devices, fetched = .ok devices → devices ≠ [] →
      asyncUpdateData fetched cache =
        (.ok (buildDeviceData devices), buildDeviceData devices)) ∧
    (fetched = .ok [] → cache ≠ [] →
      asyncUpdateData fetched cache = (.ok cache, cache)) ∧
    (fetched = .error () → cache ≠ [] →
      asyncUpdateData fetched cache = (.ok cache, cache)) := by
  refine ⟨?_, ?_, ?_⟩
  · intro devices hf hne
    subst hf
    simp [asyncUpdateData, hne]
  · intro hf hc
    subst hf
    simp [asyncUpdateData, hc]
  · intro hf hc
    subst hf
    simp [asyncUpdateData, hc]

theorem coordinator_cache_wholesale_or_retained_witness :
    asyncUpdateData
        (.ok [{ rootUuid := some "u1", nickname := some "Lamp",
                rootDevice := some "switch", commaxDevice := some "light",
                subDevice := [] }])
        [("u0",
          { rootUuid := some "u0", nickname := some "Old",
            rootDevice := some "switch", commaxDevice := some "light",
            subDevice := [] })] =
      (.ok [("u1",
             { rootUuid := some "u1", nickname := some "Lamp",
               rootDevice := some "switch", commaxDevice := some "light",
               subDevice := [] })],
       [("u1",
         { rootUuid := some "u1", nickname := some "Lamp",
           rootDevice := some "switch", commaxDevice := some "light",
           subDevice := [] })]) ∧
    asyncUpdateData (.ok [])
        [("u0",
          { rootUuid := some "u0", nickname := some "Old",
            rootDevice := some "switch", commaxDevice := some "light",
            subDevice := [] })] =
      (.ok [("u0",
             { rootUuid := some "u0", nickname := some "Old",
               rootDevice := some "switch", commaxDevice := some "light",
               subDevice := [] })],
       [("u0",
         { rootUuid := some "u0", nickname := some "Old",
           rootDevice := some "switch", commaxDevice := some "light",
           subDevice := [] })]) ∧
    asyncUpdateData (.error ())
        [("u0",
          { rootUuid := some "u0", nickname := some "Old",
            rootDevice := some "switch", commaxDevice := some "light",
            subDevice := [] })] =
      (.ok [("u0",
             { rootUuid := some "u0", nickname := some "Old",
               rootDevice := some "switch", commaxDevice := some "light",
               subDevice := [] })],
       [("u0",
         { rootUuid := some "u0", nickname := some "Old",
           rootDevice := some "switch", commaxDevice := some "light",
           subDevice := [] })]) := by
  refine ⟨?_, ?_, ?_⟩
  · have h := (coordinator_cache_wholesale_or_retained
      (.ok [{ rootUuid := some "u1", nickname := some "Lamp",
              rootDevice := some "switch", commaxDevice := some "light",
              subDevice := [] }])
      [("u0",
        { rootUuid := some "u0", nickname := some "Old",
          rootDevice := some "switch", commaxDevice := some "light",
          subDevice := [] })]).1 _ rfl (by decide)
    rw [h]; rfl
  · exact (coordinator_cache_wholesale_or_retained (.ok [])
      [("u0",
        { rootUuid := some "u0", nickname := some "Old",
          rootDevice := some "switch", commaxDevice := some "light",
          subDevice := [] })]).2.1 rfl (by decide)
  · exact (coordinator_cache_wholesale_or_retained (.error ())
      [("u0",
        { rootUuid := some "u0", nickname := some "Old",
          rootDevice := some "switch", commaxDevice := some "light",
          subDevice := [] })]).2.2 rfl (by decide)

/-! ## C6: first-run failure behaviour -/

/-- C6 counterexample: an empty device list on a first run (empty cache)
is NOT surfaced as an update failure — _async_update_data returns an
empty successful result, contradicting the claim that the registry client
yielding no devices on first run raises UpdateFailed. -/
theorem coordinator_first_run_empty_list_counterexample :
    asyncUpdateData (Except.ok ([] : List Device)) ([] : DeviceMap) =
      (Except.ok [], []) ∧
    (asyncUpdateData (Except.ok ([] : List Device)) ([] : DeviceMap)).1 ≠
      Except.error () := by
  constructor
  · rfl
  · intro h
    simp [asyncUpdateData] at h

/-- C6 (amended): only an exception during refresh with no prior cache is
surfaced as an update failure (raised UpdateFailed); an empty device list
with no prior cache yields an empty successful result instead. -/
theorem coordinator_first_run_failure_surfaced :
    asyncUpdateData (Except.error ()) ([] : DeviceMap) = (Except.error (), []) ∧
    asyncUpdateData (Except.ok ([] : List Device)) ([] : DeviceMap) =
      (Except.ok [], []) := by
  constructor <;> rfl

/-! ## C5: light "on" fallback attempt count -/

/-- C5 counterexample: with the first attempt failing and "true" being the
first accepted value, the dispatcher performs THREE send_device_command
attempts ("on", then the alternative list which starts with "on" again,
then "true"), not two, before ending with success. -/
theorem light_fallback_two_attempts_counterexample :
    lightSendCommand [false, false, true] "on" = (["on", "on", "true"], true) ∧
    (lightSendCommand [false, false, true] "on").1.length ≠ 2 := by decide

/-- C5 (amended): for a light commanded with "on", when the first attempt
fails, the fallback loop retries with the alternatives
["on", "true", "True", "1", "ON"] in order; if the retried "on" fails and
"true" succeeds, the dispatcher ends with success after exactly 3
attempts, having attempted the values "on", "on", "true". -/
theorem light_fallback_on_true_three_attempts (outcomes : List Bool)
    (h1 : headOutcome outcomes = false)
    (h2 : headOutcome outcomes.tail = false)
    (h3 : headOutcome outcomes.tail.tail = true) :
    lightSendCommand outcomes "on" = (["on", "on", "true"], true) ∧
    (lightSendCommand outcomes "on").1.length = 3 := by
  have h : lightSendCommand outcomes "on" = (["on", "on", "true"], true) := by
    unfold lightSendCommand
    rw [h1]
    simp only [alternativeValues, if_pos rfl, Bool.false_eq_true, if_false]
    unfold lightTryAlts
    rw [h2]
    simp only [Bool.false_eq_true, if_false]
    unfold lightTryAlts
    rw [h3]
    simp
  exact ⟨h, by rw [h]; rfl⟩

theorem light_fallback_on_true_three_attempts_witness :
    lightSendCommand [false, false, true] "on" = (["on", "on", "true"], true) ∧
    (lightSendCommand [false, false, true] "on").1.length = 3 :=
  light_fallback_on_true_three_attempts [false, false, true] rfl rfl rfl

/-! ## C8: optimistic local patch round-trip -/

lemma get_device_by_uuid_updateDeviceAt (cache : DeviceMap) (root : String)
    (f : Device → Device) :
    get_device_by_uuid (updateDeviceAt cache root f) root =
      Option.map f (get_device_by_uuid cache root) := by
  induction cache with
  | nil => rfl
  | cons kv rest ih =>
    rcases kv with ⟨k, d⟩
    by_cases hk : k = root
    · simp [updateDeviceAt, get_device_by_uuid, hk]
    · simp [updateDeviceAt, get_device_by_uuid, hk, ih]

lemma findSub_patchSubDevices (subs : List SubDevice) (subU v : String)
    (h : findSub subs subU ≠ none) :
    ∃ sd, findSub (patchSubDevices subs subU v) subU = some sd ∧
      sd.value = some v := by
  induction subs with
  | nil => exact absurd rfl h
  | cons sd rest ih =>
    by_cases hm : sd.subUuid = some subU
    · refine ⟨{ sd with value := some v }, ?_, rfl⟩
      simp [patchSubDevices, findSub, hm]
    · have h2 : findSub rest subU ≠ none := by
        simpa [findSub, hm] using h
      obtain ⟨sd2, hfind, hval⟩ := ih h2
      exact ⟨sd2, by simp [patchSubDevices, findSub, hm, hfind], hval⟩

/-- C8: for a device in the coordinator cache and a (non-empty) sub-device
UUID occurring in its subDevice list, patching that sub-device's value to
v via _update_local_subdevice_value and then looking the device up again
via get_device_by_uuid and scanning for the same sub-device UUID reads
back exactly v. -/
theorem optimistic_patch_roundtrip (cache : DeviceMap) (root subU v : String)
    (dev : Device) (hdev : get_device_by_uuid cache root = some dev)
    (hsub : findSub dev.subDevice subU ≠ none) (hU : subU ≠ "") :
    ∃ dev2 sd,
      get_device_by_uuid (updateLocalSubdeviceValue cache root subU v) root =
        some dev2 ∧
      findSub dev2.subDevice subU = some sd ∧ sd.value = some v := by
  obtain ⟨sd, hfind, hval⟩ := findSub_patchSubDevices dev.subDevice subU v hsub
  refine ⟨{ dev with subDevice := patchSubDevices dev.subDevice subU v }, sd,
    ?_, hfind, hval⟩
  unfold updateLocalSubdeviceValue
  rw [if_neg hU, hdev, get_device_by_uuid_updateDeviceAt, hdev]
  rfl

theorem optimistic_patch_roundtrip_witness :
    ∃ dev2 sd,
      get_device_by_uuid
        (updateLocalSubdeviceValue
          [("root1",
            { rootUuid := some "root1", nickname := some "Boiler",
              rootDevice := some "thermostat", commaxDevice := some "boiler",
              subDevice :=
                [{ subUuid := some "subA", sort := some "thermostatSetpoint",
                   type := some "readWrite", value := some "20" }] })]
          "root1" "subA" "24")
        "root1" = some dev2 ∧
      findSub dev2.subDevice "subA" = some sd ∧ sd.value = some "24" :=
  optimistic_patch_roundtrip _ "root1" "subA" "24"
    { rootUuid := some "root1", nickname := some "Boiler",
      rootDevice := some "thermostat", commaxDevice := some "boiler",
      subDevice :=
        [{ subUuid := some "subA", sort := some "thermostatSetpoint",
           type := some "readWrite", value := some "20" }] }
    (by decide) (by decide) (by decide)

/-! ## C2: near-expiry token triggers exactly one re-authentication -/

/-- C2: on a session holding a token whose expiry is within the buffer
window (now ≥ expiry − 1800), one call to get_access_token() performs
exactly one authenticate() call (exactly one auth response is consumed)
before returning; if that re-authentication fails the call returns none
rather than the stale token, and if it succeeds it returns the freshly
stored access token. -/
theorem get_access_token_near_expiry (now t : Int)
    (resps : List (Option AuthResponse)) (s : AuthState)
    (ha : s.authenticated = true) (ht : s.token_expires_at = some t)
    (ht0 : t ≠ 0) (hbuf : t - TOKEN_EXPIRE_BUFFER ≤ now) :
    (get_access_token now resps s).2.2 = resps.tail ∧
    ((authPop now resps s).1 = false → (get_access_token now resps s).1 = none) ∧
    ((authPop now resps s).1 = true →
      (get_access_token now resps s).1 =
        (authPop now resps s).2.1.access_token) := by
  have hrtn : refresh_token_if_needed now resps s = authPop now resps s := by
    unfold refresh_token_if_needed
    rw [ht]
    simp only [if_neg ht0, if_pos hbuf]
  have hrest := authPop_remaining now resps s
  rcases hA : authPop now resps s with ⟨ok, s2, r2⟩
  rw [hA] at hrtn hrest
  have hg : get_access_token now resps s =
      if ok then (s2.access_token, s2, r2) else (none, s2, r2) := by
    unfold get_access_token
    rw [ha]
    simp only [if_true, hrtn]
    cases ok <;> rfl
  have hr2 : r2 = resps.tail := hrest
  cases ok
  · simp [hg, hr2]
  · simp [hg, hr2]

theorem get_access_token_near_expiry_witness :
    (get_access_token 1000
      [some { status := 503, resultCode := none, accessToken := none,
              refreshToken := none, expireIn := none }]
      { access_token := some "stale", refresh_token := some "ref",
        token_expires_at := some 2000, authenticated := true }).2.2 = [] ∧
    (get_access_token 1000
      [some { status := 503, resultCode := none, accessToken := none,
              refreshToken := none, expireIn := none }]
      { access_token := some "stale", refresh_token := some "ref",
        token_expires_at := some 2000, authenticated := true }).1 = none := by
  have h := get_access_token_near_expiry 1000 2000
    [some { status := 503, resultCode := none, accessToken := none,
            refreshToken := none, expireIn := none }]
    { access_token := some "stale", refresh_token := some "ref",
      token_expires_at := some 2000, authenticated := true }
    rfl rfl (by decide) (by decide)
  exact ⟨h.1, h.2.1 (by decide)⟩

/-! ## C9: fan percentage-to-speed mapping -/

/-- C9 counterexample: with 58 speed options and percentage 50 the code's
float64 evaluation (50 / (100/58) = 29.000000000000004, ceil 30) selects
index 29, while the claim's exact ceiling formula
ceiling(50·58/100) − 1 = 28, clamped, gives index 28 — so the claimed
formula is false of the program at this input. -/
theorem fan_percentage_formula_counterexample :
    percentage_to_speed
      (List.replicate 28 "x" ++ ["idx28", "idx29"] ++ List.replicate 28 "y")
      50 = some "idx29" ∧
    (List.replicate 28 "x" ++ ["idx28", "idx29"] ++
      List.replicate 28 "y").length = 58 ∧
    max 0 (min (Int.ceil (((50 : ℚ) * 58) / 100) - 1) ((58 : ℤ) - 1)) = 28 ∧
    (List.replicate 28 "x" ++ ["idx28", "idx29"] ++
      List.replicate 28 "y").get? 28 = some "idx28" := by
  refine ⟨by decide, by decide, ?_, by decide⟩
  have hceil : Int.ceil (((50 : ℚ) * 58) / 100) = 29 := by
    rw [Int.ceil_eq_iff]
    constructor <;> norm_num
  rw [hceil]
  norm_num

/-- C9 (amended): for a non-empty option list and a percentage in 1..100,
_percentage_to_speed selects the option at the float64-evaluated index
ceil(percentage / (100 / n)) − 1 (fanIndex) clamped into [0, n−1], so the
selected index always lies within the list's bounds; with 3 options and
percentage 50 it selects index 1, the 2nd option, agreeing with the exact
ceiling formula — but the float evaluation diverges from that formula at
rounding-boundary inputs: with 58 options and percentage 50 it selects
index 29 where the exact formula gives 28. -/
theorem fan_percentage_to_speed_float_spec (options : List String) (p : Int)
    (hne : options ≠ []) (h1 : 1 ≤ p) (h2 : p ≤ 100) :
    ∃ i : Nat, i < options.length ∧
      percentage_to_speed options p = options.get? i ∧
      (i : Int) =
        max 0 (min (fanIndex options.length p)
                   ((options.length : Int) - 1)) ∧
      (options.length = 3 → p = 50 → i = 1) ∧
      (options.length = 58 → p = 50 → i = 29) := by
  have hp0 : ¬ (options = [] ∨ p ≤ 0) := by
    push_neg
    exact ⟨hne, by omega⟩
  have hlen : 1 ≤ options.length := List.length_pos.mpr hne
  have hdef : percentage_to_speed options p =
      options.get? (max 0 (min (fanIndex options.length p)
        ((options.length : Int) - 1))).toNat := by
    simp only [percentage_to_speed, if_neg hp0]
  have hB : (0 : Int) ≤ max 0 (min (fanIndex options.length p)
      ((options.length : Int) - 1)) := le_max_left _ _
  have hA : max 0 (min (fanIndex options.length p)
      ((options.length : Int) - 1)) ≤ (options.length : Int) - 1 :=
    max_le (by omega) (min_le_right _ _)
  refine ⟨(max 0 (min (fanIndex options.length p)
      ((options.length : Int) - 1))).toNat, ?_, hdef, ?_, ?_, ?_⟩
  · omega
  · exact Int.toNat_of_nonneg hB
  · intro h3 h50
    subst h50
    rw [h3]
    decide
  · intro h58 h50
    subst h50
    rw [h58]
    decide

theorem fan_percentage_to_speed_float_spec_witness :
    percentage_to_speed ["low", "mid", "high"] 50 = some "mid" := by
  obtain ⟨i, hi, heq, hval, h35, h58⟩ :=
    fan_percentage_to_speed_float_spec ["low", "mid", "high"] 50 (by decide)
      (by decide) (by decide)
  rw [h35 rfl rfl] at heq
  simpa using heq

/-! ## C1: send_device_command success condition -/

/-- C1: send_device_command returns true exactly when the final HTTP
response (the initial POST's, or the single retry's after a 401) exists,
has status 200 and carries the success result code "E0000"; every other
combination — no token, transport exception, non-200 status, missing or
non-success result code, failed re-authentication — returns false (the
embedding is a total function: nothing is raised). -/
theorem send_device_command_success_iff (now : Int)
    (a : List (Option AuthResponse)) (c : List (Option CmdResponse))
    (s : AuthState) :
    (send_device_command now a c s).1 = true ↔
    ∃ r, finalCmdResponse now a c s = some r ∧ r.status = 200 ∧
         r.resultCode = some API_SUCCESS_CODE := by
  rcases h1 : get_access_token now a s with ⟨tok, s1, a1⟩
  by_cases htok : optStrTruthy tok
  · cases c with
    | nil => simp [send_device_command, finalCmdResponse, h1, htok]
    | cons r0 c1 =>
      cases r0 with
      | none => simp [send_device_command, finalCmdResponse, h1, htok]
      | some r =>
        by_cases h401 : r.status = 401
        · rcases h2 : get_access_token now a1 { s1 with authenticated := false }
            with ⟨tok2, s3, a2⟩
          by_cases htok2 : optStrTruthy tok2
          · cases c1 with
            | nil =>
              simp [send_device_command, finalCmdResponse, h1, htok, h401,
                h2, htok2]
            | cons r1 c2 =>
              cases r1 with
              | none =>
                simp [send_device_command, finalCmdResponse, h1, htok, h401,
                  h2, htok2]
              | some r2 =>
                by_cases hs2 : r2.status = 200
                · by_cases hc2 : r2.resultCode = some API_SUCCESS_CODE
                  · simp [send_device_command, finalCmdResponse, h1, htok,
                      h401, h2, htok2, hs2, hc2]
                  · simp [send_device_command, finalCmdResponse, h1, htok,
                      h401, h2, htok2, hs2, hc2]
                · simp [send_device_command, finalCmdResponse, h1, htok,
                    h401, h2, htok2, hs2]
          · simp [send_device_command, finalCmdResponse, h1, htok, h401, h2,
              htok2]
        · by_cases hs : r.status = 200
          · by_cases hc : r.resultCode = some API_SUCCESS_CODE
            · simp [send_device_command, finalCmdResponse, h1, htok, h401,
                hs, hc]
            · simp [send_device_command, finalCmdResponse, h1, htok, h401,
                hs, hc]
          · simp [send_device_command, finalCmdResponse, h1, htok, h401, hs]
  · simp [send_device_command, finalCmdResponse, h1, htok]

theorem send_device_command_success_iff_witness :
    (send_device_command 0
      [some { status := 200, resultCode := some "E0000",
              accessToken := some "tok", refreshToken := some "ref",
              expireIn := some 3600 }]
      [some { status := 200, resultCode := some "E0000" }]
      { access_token := none, refresh_token := none,
        token_expires_at := none, authenticated := false }).1 = true :=
  (send_device_command_success_iff 0
    [some { status := 200, resultCode := some "E0000",
            accessToken := some "tok", refreshToken := some "ref",
            expireIn := some 3600 }]
    [some { status := 200, resultCode := some "E0000" }]
    { access_token := none, refresh_token := none,
      token_expires_at := none, authenticated := false }).mpr
    ⟨{ status := 200, resultCode := some "E0000" }, by decide, rfl, rfl⟩

/-! ## C4: get_device_list 401 retry discipline -/

/-- C4: get_device_list never performs more than two GETs (the remaining
GET environment is l, l.tail or l.tail.tail); a 401 on the initial GET
with an obtained token triggers exactly one re-authentication round and —
when it yields a token — exactly one retry GET, whose failure (any
non-200 status, a second 401 included) yields []; failed re-authentication
yields [] with no retry; and every path whose final response is missing,
non-200 or non-success yields [] — the embedding is a total function, so
nothing is ever raised to the caller. -/
theorem get_device_list_single_retry (now : Int)
    (a : List (Option AuthResponse)) (l : List (Option ListResponse))
    (s : AuthState) :
    ((get_device_list now a l s).2.2.2 = l ∨
     (get_device_list now a l s).2.2.2 = l.tail ∨
     (get_device_list now a l s).2.2.2 = l.tail.tail) ∧
    (∀ r rest, l = some r :: rest → r.status = 401 →
      optStrTruthy (get_access_token now a s).1 →
      ((¬ optStrTruthy (reauthAfter401 now a s).1 →
         (get_device_list now a l s).1 = [] ∧
         (get_device_list now a l s).2.2.2 = rest) ∧
       (optStrTruthy (reauthAfter401 now a s).1 →
         (get_device_list now a l s).2.2.2 = rest.tail ∧
         ∀ r2 rest2, rest = some r2 :: rest2 → r2.status ≠ 200 →
           (get_device_list now a l s).1 = []))) ∧
    ((finalListResponse now a l s = none ∨
      ∃ r, finalListResponse now a l s = some r ∧
        (r.status ≠ 200 ∨ r.resultCode ≠ some API_SUCCESS_CODE)) →
     (get_device_list now a l s).1 = []) := by
  rcases h1 : get_access_token now a s with ⟨tok, s1, a1⟩
  refine ⟨?_, ?_, ?_⟩
  · by_cases htok : optStrTruthy tok
    · cases l with
      | nil => simp [get_device_list, h1, htok]
      | cons r0 l1 =>
        cases r0 with
        | none => simp [get_device_list, h1, htok]
        | some r =>
          by_cases h401 : r.status = 401
          · rcases h2 : get_access_token now a1 { s1 with authenticated := false }
              with ⟨tok2, s3, a2⟩
            by_cases htok2 : optStrTruthy tok2
            · cases l1 with
              | nil => simp [get_device_list, h1, htok, h401, h2, htok2]
              | cons r1 l2 =>
                cases r1 with
                | none => simp [get_device_list, h1, htok, h401, h2, htok2]
                | some r2 =>
                  by_cases hs2 : r2.status = 200
                  · by_cases hc2 : r2.resultCode = some API_SUCCESS_CODE
                    · simp [get_device_list, h1, htok, h401, h2, htok2,
                        hs2, hc2]
                    · simp [get_device_list, h1, htok, h401, h2, htok2,
                        hs2, hc2]
                  · simp [get_device_list, h1, htok, h401, h2, htok2, hs2]
            · simp [get_device_list, h1, htok, h401, h2, htok2]
          · by_cases hs : r.status = 200
            · by_cases hc : r.resultCode = some API_SUCCESS_CODE
              · simp [get_device_list, h1, htok, h401, hs, hc]
              · simp [get_device_list, h1, htok, h401, hs, hc]
            · simp [get_device_list, h1, htok, h401, hs]
    · simp [get_device_list, h1, htok]
  · intro r rest hl h401 htok
    subst hl
    replace htok : optStrTruthy tok = true := htok
    rcases h2 : get_access_token now a1 { s1 with authenticated := false }
      with ⟨tok2, s3, a2⟩
    have hre : reauthAfter401 now a s = (tok2, s3, a2) := by
      simp [reauthAfter401, h1, h2]
    rw [hre]
    constructor
    · intro htok2
      replace htok2 : ¬ optStrTruthy tok2 = true := htok2
      simp [get_device_list, h1, htok, h401, h2, htok2]
    · intro htok2
      replace htok2 : optStrTruthy tok2 = true := htok2
      cases rest with
      | nil =>
        refine ⟨by simp [get_device_list, h1, htok, h401, h2, htok2], ?_⟩
        intro r2 rest2 hrest
        exact absurd hrest (by simp)
      | cons r1 l2 =>
        cases r1 with
        | none =>
          refine ⟨by simp [get_device_list, h1, htok, h401, h2, htok2], ?_⟩
          intro r2 rest2 hrest
          exact absurd hrest (by simp)
        | some r2 =>
          constructor
          · by_cases hs2 : r2.status = 200
            · by_cases hc2 : r2.resultCode = some API_SUCCESS_CODE
              · simp [get_device_list, h1, htok, h401, h2, htok2, hs2, hc2]
              · simp [get_device_list, h1, htok, h401, h2, htok2, hs2, hc2]
            · simp [get_device_list, h1, htok, h401, h2, htok2, hs2]
          · intro r2q rest2 hrest h200
            have hr2q : r2 = r2q := by
              injection hrest with hh ht
              exact Option.some_inj.mp hh
            subst hr2q
            simp [get_device_list, h1, htok, h401, h2, htok2, h200]
  · intro hfail
    by_cases htok : optStrTruthy tok
    · cases l with
      | nil => simp [get_device_list, h1, htok]
      | cons r0 l1 =>
        cases r0 with
        | none => simp [get_device_list, h1, htok]
        | some r =>
          by_cases h401 : r.status = 401
          · rcases h2 : get_access_token now a1 { s1 with authenticated := false }
              with ⟨tok2, s3, a2⟩
            by_cases htok2 : optStrTruthy tok2
            · cases l1 with
              | nil => simp [get_device_list, h1, htok, h401, h2, htok2]
              | cons r1 l2 =>
                cases r1 with
                | none => simp [get_device_list, h1, htok, h401, h2, htok2]
                | some r2 =>
                  by_cases hs2 : r2.status = 200
                  · by_cases hc2 : r2.resultCode = some API_SUCCESS_CODE
                    · exfalso
                      simp [finalListResponse, h1, htok, h401, h2, htok2,
                        hs2, hc2] at hfail
                    · simp [get_device_list, h1, htok, h401, h2, htok2,
                        hs2, hc2]
                  · simp [get_device_list, h1, htok, h401, h2, htok2, hs2]
            · simp [get_device_list, h1, htok, h401, h2, htok2]
          · by_cases hs : r.status = 200
            · by_cases hc : r.resultCode = some API_SUCCESS_CODE
              · exfalso
                simp [finalListResponse, h1, htok, h401, hs, hc] at hfail
              · simp [get_device_list, h1, htok, h401, hs, hc]
            · simp [get_device_list, h1, htok, h401, hs]
    · simp [get_device_list, h1, htok]

theorem get_device_list_single_retry_witness :
    (get_device_list 0
      [some { status := 200, resultCode := some "E0000",
              accessToken := some "tok", refreshToken := some "ref",
              expireIn := some 3600 },
       some { status := 200, resultCode := some "E0000",
              accessToken := some "tok2", refreshToken := some "ref2",
              expireIn := some 3600 }]
      [some { status := 401, resultCode := none, devices := [] },
       some { status := 401, resultCode := none, devices := [] }]
      { access_token := none, refresh_token := none,
        token_expires_at := none, authenticated := false }).1 = [] :=
  (((get_device_list_single_retry 0
      [some { status := 200, resultCode := some "E0000",
              accessToken := some "tok", refreshToken := some "ref",
              expireIn := some 3600 },
       some { status := 200, resultCode := some "E0000",
              accessToken := some "tok2", refreshToken := some "ref2",
              expireIn := some 3600 }]
      [some { status := 401, resultCode := none, devices := [] },
       some { status := 401, resultCode := none, devices := [] }]
      { access_token := none, refresh_token := none,
        token_expires_at := none, authenticated := false }).2.1
      { status := 401, resultCode := none, devices := [] }
      [some { status := 401, resultCode := none, devices := [] }]
      rfl rfl (by decide)).2 (by decide)).2
    { status := 401, resultCode := none, devices := [] } [] rfl (by decide)
